import Mathlib

/-!
Shallow embedding of `insanely-fast-whisper.py` (the `check_fp16` capability
check, the `seconds_to_srt_time_format` timestamp repair/format function, and
the SRT-writing loop of `asr_cli`), together with proofs about the claims of
the specification.

Modelling conventions:
* Python numbers (ints and floats) are modelled as exact rationals `ℚ`.
* Python values that may appear in a timestamp field are modelled by `PyVal`;
  Python `bool` is a subclass of `int`, so booleans count as numeric for
  `isinstance(x, int)`.
* Python strings are Lean `String`s; the Python string operations used by the
  code (`strip`, `split`, `startswith`, `int(...)` parsing) are re-implemented
  structurally below so that they compute by kernel reduction.
* Stderr output is modelled as a `List String` of emitted diagnostic lines; an
  uncaught Python exception is modelled as `Except.error`.
-/

/-- Python truncation `int(x)` on a real value: rounds toward zero. -/
def pyInt (q : ℚ) : ℤ := if 0 ≤ q then ⌊q⌋ else ⌈q⌉

/-- Zero padding as done by Python's format spec `0Nd`: the minimum field
width counts the sign character, and padding zeros go after the sign. -/
def padZeros (w : Nat) (s : String) : String :=
  if w ≤ s.length then s
  else
    match s.data with
    | '-' :: rest => String.mk ('-' :: (List.replicate (w - s.length) '0' ++ rest))
    | l => String.mk (List.replicate (w - s.length) '0' ++ l)

/-- Python `format(n, '0Nd')` for an integer `n`, as used in the f-string of
`seconds_to_srt_time_format`. -/
def pyFmtD (w : Nat) (n : ℤ) : String := padZeros w (toString n)

/-- ASCII whitespace characters stripped by Python's `str.strip()`. -/
def pyIsSpace (c : Char) : Bool :=
  c = ' ' || c = '\t' || c = '\n' || c = '\x0d' || c = '\x0b' || c = '\x0c'

/-- Python `str.strip()`: remove leading and trailing whitespace. -/
def pyStrip (s : String) : String :=
  String.mk (((s.data.dropWhile pyIsSpace).reverse.dropWhile pyIsSpace).reverse)

/-- Splitting a character list at every occurrence of a separator character. -/
def splitChar (sep : Char) : List Char → List (List Char)
  | [] => [[]]
  | c :: rest =>
    if c = sep then [] :: splitChar sep rest
    else
      match splitChar sep rest with
      | [] => [[c]]
      | g :: gs => (c :: g) :: gs

/-- Python `str.split(sep)` for a one-character separator. -/
def pySplit (sep : Char) (s : String) : List String :=
  (splitChar sep s.data).map String.mk

/-- Boolean test that the first list is an initial segment of the second. -/
def isPrefixList : List Char → List Char → Bool
  | [], _ => true
  | _ :: _, [] => false
  | a :: as, b :: bs => a = b && isPrefixList as bs

/-- Python `s.startswith(p)`. -/
def pyStartsWith (p s : String) : Bool := isPrefixList p.data s.data

/-- Digits-to-number accumulation for decimal integer literals. -/
def digitsToNat (l : List Char) : ℕ :=
  l.foldl (fun acc c => acc * 10 + (c.toNat - 48)) 0

/-- Python `int(s)` on a string: strip whitespace, allow one optional sign,
then require a non-empty run of decimal digits; anything else raises
`ValueError`, modelled as `Option.none`. -/
def pyParseInt (s : String) : Option ℤ :=
  match (pyStrip s).data with
  | '-' :: ds =>
    if !ds.isEmpty && ds.all Char.isDigit then Option.some (-(digitsToNat ds : ℤ))
    else Option.none
  | '+' :: ds =>
    if !ds.isEmpty && ds.all Char.isDigit then Option.some ((digitsToNat ds : ℤ))
    else Option.none
  | ds =>
    if !ds.isEmpty && ds.all Char.isDigit then Option.some ((digitsToNat ds : ℤ))
    else Option.none

/-- Python values that may appear in a chunk's timestamp field. `bool` is a
separate constructor because Python booleans pass `isinstance(x, int)` while
not being written as numbers. -/
inductive PyVal where
  | none
  | num (q : ℚ)
  | bool (b : Bool)
  | str (s : String)

/-- Test performed by line 81 of the source:
`isinstance(seconds, int) or isinstance(seconds, float)`. Python booleans are
instances of `int`, so they count as numeric. -/
def PyVal.isNumeric : PyVal → Bool
  | PyVal.num _ => true
  | PyVal.bool _ => true
  | _ => false

/-- Numeric value of a numeric `PyVal` (Python `True == 1`, `False == 0`);
the value is irrelevant (never used by the code) for non-numeric inputs. -/
def PyVal.toRat : PyVal → ℚ
  | PyVal.num q => q
  | PyVal.bool b => if b then 1 else 0
  | _ => 0

/-- Lines 81–84 of `seconds_to_srt_time_format`: after the repair `if`, both
`prev` and `seconds` hold the numeric value of the field when it is numeric,
and the old `prev` otherwise. -/
def repairSeconds (prev : ℚ) (v : PyVal) : ℚ :=
  if v.isNumeric then v.toRat else prev

/-- Lines 85–93 of `seconds_to_srt_time_format`: the `HH:MM:SS,mmm` rendering
of the repaired seconds value. Python's `//` and `%` on a positive modulus are
floor division and the matching remainder `x - m * (x // m)`; `int(...)`
truncates toward zero; `int(hours)` of the integral float `seconds // 3600` is
written directly as the floor. -/
def renderSRTTime (seconds0 : ℚ) : String :=
  let hours : ℤ := ⌊seconds0 / 3600⌋
  let seconds1 : ℚ := seconds0 - 3600 * (hours : ℚ)
  let minutes : ℤ := ⌊seconds1 / 60⌋
  let seconds2 : ℚ := seconds1 - 60 * (minutes : ℚ)
  let milliseconds : ℤ := pyInt ((seconds2 - (pyInt seconds2 : ℚ)) * 1000)
  pyFmtD 2 hours ++ ":" ++ pyFmtD 2 minutes ++ ":" ++ pyFmtD 2 (pyInt seconds2)
    ++ "," ++ pyFmtD 3 milliseconds

/-- The function `seconds_to_srt_time_format(prev, seconds)` of the source:
returns the updated accumulator and the formatted time string. -/
def seconds_to_srt_time_format (prev : ℚ) (v : PyVal) : ℚ × String :=
  (repairSeconds prev v, renderSRTTime (repairSeconds prev v))

/-- A transcription chunk as consumed by the SRT-writing loop:
`chunk['text']` and `chunk['timestamp'][0] / [1]`. -/
structure Chunk where
  text : String
  timestamp : PyVal × PyVal

/-- Lines 72–78 of `asr_cli`: the SRT-writing loop, as a function from the
accumulator `prev`, the 0-based `enumerate` index, and the remaining chunks to
the text appended to the file. -/
def writeChunks : ℚ → ℕ → List Chunk → String
  | _, _, [] => ""
  | prev, index, chunk :: rest =>
    let r1 := seconds_to_srt_time_format prev chunk.timestamp.1
    let r2 := seconds_to_srt_time_format r1.1 chunk.timestamp.2
    toString (index + 1) ++ "\n" ++ r1.2 ++ " --> " ++ r2.2 ++ "\n"
      ++ pyStrip chunk.text ++ "\n\n" ++ writeChunks r2.1 (index + 1) rest

/-- The full content written to the `.srt` file: the loop started with
`prev = 0` and `enumerate` index 0. -/
def srtFileContent (chunks : List Chunk) : String := writeChunks 0 0 chunks

/-- The flat sequence of timestamp fields in processing order:
start then end of each chunk. -/
def chunkFields : List Chunk → List PyVal
  | [] => []
  | c :: rest => c.timestamp.1 :: c.timestamp.2 :: chunkFields rest

/-- The repaired raw seconds value fed into each timestamp conversion, one per
field, carrying the accumulator forward. -/
def repairedSeconds : ℚ → List PyVal → List ℚ
  | _, [] => []
  | prev, v :: rest =>
    let p := repairSeconds prev v
    p :: repairedSeconds p rest

/-- The numeric values present in a field sequence, in order. -/
def numericValues (fields : List PyVal) : List ℚ :=
  (fields.filter PyVal.isNumeric).map PyVal.toRat

/-- An SRT cue as described by the specification's data model. -/
structure SrtCue where
  index : ℕ
  startTC : String
  endTC : String
  text : String

/-- Cue construction following the specification's words: 1-based index,
repaired start and end TimeCodes via the carried accumulator, stripped text. -/
def cuesOf : ℚ → ℕ → List Chunk → List SrtCue
  | _, _, [] => []
  | last, i, chunk :: rest =>
    let s := repairSeconds last chunk.timestamp.1
    let e := repairSeconds s chunk.timestamp.2
    { index := i + 1, startTC := renderSRTTime s, endTC := renderSRTTime e,
      text := pyStrip chunk.text } :: cuesOf e (i + 1) rest

/-- Rendering of one cue: index line, time line, text line, blank line. -/
def cueBlock (c : SrtCue) : String :=
  toString c.index ++ "\n" ++ c.startTC ++ " --> " ++ c.endTC ++ "\n"
    ++ c.text ++ "\n\n"

/-- Concatenation of a list of strings. -/
def concatStrings : List String → String
  | [] => ""
  | s :: rest => s ++ concatStrings rest

/-- The SRT file as the specification describes it: the cue blocks in order,
nothing else. -/
def srtSpec (chunks : List Chunk) : String :=
  concatStrings ((cuesOf 0 0 chunks).map cueBlock)

/-- TimeCode rendering as worded in the specification: hours = value div 3600,
minutes = remainder div 60, whole seconds = remainder of that, milliseconds =
fractional part × 1000 truncated to integer, fields zero-padded to 2/2/2/3. -/
def specTimeCode (q : ℚ) : String :=
  let hours : ℤ := ⌊q / 3600⌋
  let rem : ℚ := q - 3600 * (hours : ℚ)
  let minutes : ℤ := ⌊rem / 60⌋
  let rem2 : ℚ := rem - 60 * (minutes : ℚ)
  let secs : ℤ := ⌊rem2⌋
  let ms : ℤ := pyInt ((q - (⌊q⌋ : ℚ)) * 1000)
  pyFmtD 2 hours ++ ":" ++ pyFmtD 2 minutes ++ ":" ++ pyFmtD 2 secs
    ++ "," ++ pyFmtD 3 ms

/-- A compute device reference as accepted by `check_fp16`: an integer index
or a string. -/
inductive Device where
  | int (i : ℤ)
  | str (s : String)

/-- The accelerator runtime state probed by `check_fp16`:
`torch.cuda.is_available()` and, per device index,
`torch.cuda.get_device_properties(i).major` (an `AssertionError` with message
`e` for an invalid index is `Except.error e`). -/
structure CudaEnv where
  available : Bool
  deviceMajor : ℤ → Except String ℕ

/-- Lines 26–33 of the source: query the device properties, catching
`AssertionError` (diagnostic, result `False`), otherwise test `major >= 7`. -/
def getDeviceMajorDecision (env : CudaEnv) (gpu_index : ℤ) :
    List String × Except String Bool :=
  match env.deviceMajor gpu_index with
  | Except.error e => (["Error: " ++ e], Except.ok false)
  | Except.ok major => ([], Except.ok (decide (7 ≤ major)))

/-- The function `check_fp16(device)` of the source. The first component is
the list of diagnostics printed to stderr; the second is the returned boolean,
or `Except.error` for an uncaught exception (`int(...)` raising `ValueError`
on a `cuda:`-prefixed string whose index part is not an integer literal). -/
def check_fp16 (env : CudaEnv) (device : Device) : List String × Except String Bool :=
  if env.available = false then
    (["CUDA is not available on this system."], Except.ok false)
  else
    match device with
    | Device.str s =>
      if pyStartsWith "cuda:" s then
        match pyParseInt ((pySplit ':' s).getD 1 "") with
        | Option.some i => getDeviceMajorDecision env i
        | Option.none =>
          ([], Except.error "ValueError: invalid literal for int() with base 10")
      else
        (["Invalid device format. Use an integer or a string like 'cuda:0'."],
          Except.ok false)
    | Device.int i => getDeviceMajorDecision env i

/-- Torch dtypes occurring in the program. -/
inductive TorchDtype where
  | float16
  | float32
deriving DecidableEq

/-- Line 51 of `asr_cli`:
`torch.float16 if dtype == "float16" and check_fp16(device) else torch.float32`;
the `and` short-circuits, so `check_fp16` runs only when `dtype == "float16"`.
An uncaught exception inside `check_fp16` propagates. -/
def torch_dtype_choice (env : CudaEnv) (dtype : String) (device : Device) :
    Except String TorchDtype :=
  if dtype = "float16" then
    match (check_fp16 env device).2 with
    | Except.ok true => Except.ok TorchDtype.float16
    | Except.ok false => Except.ok TorchDtype.float32
    | Except.error e => Except.error e
  else Except.ok TorchDtype.float32

/-- The index that `check_fp16` would extract from a device reference. -/
def deviceIndex : Device → Option ℤ
  | Device.int i => Option.some i
  | Device.str s =>
    if pyStartsWith "cuda:" s then pyParseInt ((pySplit ':' s).getD 1 "")
    else Option.none

/-- Devices on which `check_fp16` performs no fallible integer parse: integer
indices, strings without the `cuda:` marker, and `cuda:`-prefixed strings
whose index part parses. -/
def cleanParse : Device → Prop
  | Device.int _ => True
  | Device.str s =>
    pyStartsWith "cuda:" s = true → (pyParseInt ((pySplit ':' s).getD 1 "")).isSome

/-- Boolean success test on the modelled result of a Python call. -/
def isOkB : Except String Bool → Bool
  | Except.ok _ => true
  | Except.error _ => false

/-- Truncation agrees with the floor on non-negative values. -/
theorem pyInt_of_nonneg (q : ℚ) (h : 0 ≤ q) : pyInt q = ⌊q⌋ := by
  unfold pyInt
  exact if_pos h

/-- Evaluation scheme for `renderSRTTime`: supplying the value of each
intermediate quantity rewrites the rendering to explicit formats. -/
theorem renderSRTTime_eval (q r1 r2 : ℚ) (h m s ms : ℤ)
    (hh : ⌊q / 3600⌋ = h) (hr1 : q - 3600 * (h : ℚ) = r1)
    (hm : ⌊r1 / 60⌋ = m) (hr2 : r1 - 60 * (m : ℚ) = r2)
    (hs : pyInt r2 = s) (hms : pyInt ((r2 - (s : ℚ)) * 1000) = ms) :
    renderSRTTime q =
      pyFmtD 2 h ++ ":" ++ pyFmtD 2 m ++ ":" ++ pyFmtD 2 s ++ "," ++ pyFmtD 3 ms := by
  simp only [renderSRTTime]
  rw [hh, hr1, hm, hr2, hs, hms]

theorem renderSRTTime_zero : renderSRTTime 0 = "00:00:00,000" := by
  rw [renderSRTTime_eval 0 0 0 0 0 0 0]
  · decide
  · norm_num
  · norm_num
  · norm_num
  · norm_num
  · rw [pyInt_of_nonneg _ le_rfl]; norm_num
  · rw [pyInt_of_nonneg _ (by norm_num)]; norm_num

theorem renderSRTTime_one : renderSRTTime 1 = "00:00:01,000" := by
  rw [renderSRTTime_eval 1 1 1 0 0 1 0]
  · decide
  · norm_num [Int.floor_eq_iff]
  · norm_num
  · norm_num [Int.floor_eq_iff]
  · norm_num
  · rw [pyInt_of_nonneg _ (by norm_num)]; norm_num [Int.floor_eq_iff]
  · rw [pyInt_of_nonneg _ (by norm_num)]; norm_num

theorem renderSRTTime_3661001 :
    renderSRTTime (3661001 / 1000) = "01:01:01,001" := by
  rw [renderSRTTime_eval (3661001 / 1000) (61001 / 1000) (1001 / 1000) 1 1 1 1]
  · decide
  · norm_num [Int.floor_eq_iff]
  · norm_num
  · norm_num [Int.floor_eq_iff]
  · norm_num
  · rw [pyInt_of_nonneg _ (by norm_num)]; norm_num [Int.floor_eq_iff]
  · rw [pyInt_of_nonneg _ (by norm_num)]; norm_num [Int.floor_eq_iff]

/-- C1: Timeline Repairer carry-forward: a numeric field value becomes the new
accumulator and is the value rendered (even when lower than the current
accumulator, since `prev` is arbitrary); a non-numeric field reuses the
previous accumulator, leaving it unchanged; the accumulator starts at 0, so a
missing first start renders as `00:00:00,000`. -/
theorem carry_forward_C1 (prev : ℚ) (v : PyVal) :
    (v.isNumeric = true →
      seconds_to_srt_time_format prev v = (v.toRat, renderSRTTime v.toRat))
    ∧ (v.isNumeric = false →
      seconds_to_srt_time_format prev v = (prev, renderSRTTime prev))
    ∧ seconds_to_srt_time_format 0 PyVal.none = (0, "00:00:00,000") := by
  refine ⟨fun h => ?_, fun h => ?_, ?_⟩
  · simp [seconds_to_srt_time_format, repairSeconds, h]
  · simp [seconds_to_srt_time_format, repairSeconds, h]
  · simp [seconds_to_srt_time_format, repairSeconds, PyVal.isNumeric,
      renderSRTTime_zero]

/-- Witness for C1: an accumulator of 7 with a present lower value 5 takes the
value 5, and a missing field at accumulator 7 reuses 7. -/
theorem carry_forward_C1_witness :
    ((PyVal.num 5).isNumeric = true
      ∧ seconds_to_srt_time_format 7 (PyVal.num 5) = (5, renderSRTTime 5))
    ∧ (PyVal.none.isNumeric = false
      ∧ seconds_to_srt_time_format 7 PyVal.none = (7, renderSRTTime 7)) :=
  ⟨⟨rfl, (carry_forward_C1 7 (PyVal.num 5)).1 rfl⟩,
    ⟨rfl, (carry_forward_C1 7 PyVal.none).2.1 rfl⟩⟩

/-- C9: a boolean timestamp field is numeric, not missing: `True` sets the
accumulator to 1 and renders `00:00:01,000`, `False` sets it to 0 and renders
`00:00:00,000`, for every previous accumulator value. -/
theorem bool_timestamp_C9 (prev : ℚ) :
    seconds_to_srt_time_format prev (PyVal.bool true) = (1, "00:00:01,000")
    ∧ seconds_to_srt_time_format prev (PyVal.bool false) = (0, "00:00:00,000") := by
  constructor
  · simp [seconds_to_srt_time_format, repairSeconds, PyVal.isNumeric, PyVal.toRat,
      renderSRTTime_one]
  · simp [seconds_to_srt_time_format, repairSeconds, PyVal.isNumeric, PyVal.toRat,
      renderSRTTime_zero]

/-- The rendering performed by the code agrees with the specification's
decomposition formula for every rational input: the whole-seconds field is
non-negative (a floor-remainder by a positive modulus), so truncation is
floor, and the fractional part of the twice-reduced remainder equals the
fractional part of the input value. -/
theorem renderSRTTime_eq_specTimeCode (q : ℚ) : renderSRTTime q = specTimeCode q := by
  simp only [renderSRTTime, specTimeCode]
  set h : ℤ := ⌊q / 3600⌋ with hh
  set s1 : ℚ := q - 3600 * (h : ℚ) with hs1
  set m : ℤ := ⌊s1 / 60⌋ with hm
  set s2 : ℚ := s1 - 60 * (m : ℚ) with hs2
  have h2 : (0 : ℚ) ≤ s2 := by
    have hf : ((m : ℚ)) ≤ s1 / 60 := Int.floor_le (s1 / 60)
    rw [hs2]
    linarith
  have hps2 : pyInt s2 = ⌊s2⌋ := pyInt_of_nonneg _ h2
  have hfr : s2 - ((⌊s2⌋ : ℤ) : ℚ) = q - ((⌊q⌋ : ℤ) : ℚ) := by
    have e1 : s2 = q - ((3600 * h + 60 * m : ℤ) : ℚ) := by
      rw [hs2, hs1]; push_cast; ring
    rw [Int.self_sub_floor, Int.self_sub_floor, e1, Int.fract_sub_int]
  rw [hps2, hfr]

/-- C3: TimeCode conversion: for every non-negative numeric seconds value the
rendered string follows the specification's decomposition (hours = value div
3600, minutes = remainder div 60, whole seconds = remainder of that,
milliseconds = fractional part × 1000 truncated, padded 2/2/2/3 in the format
`HH:MM:SS,mmm`); in particular 3661.001 renders as `01:01:01,001`. -/
theorem timecode_C3 :
    (∀ (prev q : ℚ), 0 ≤ q →
      (seconds_to_srt_time_format prev (PyVal.num q)).2 = specTimeCode q)
    ∧ (seconds_to_srt_time_format 0 (PyVal.num (3661001 / 1000))).2 = "01:01:01,001" := by
  constructor
  · intro prev q _
    have hrep : repairSeconds prev (PyVal.num q) = q := by
      simp [repairSeconds, PyVal.isNumeric, PyVal.toRat]
    simp [seconds_to_srt_time_format, hrep, renderSRTTime_eq_specTimeCode]
  · have hrep : repairSeconds 0 (PyVal.num (3661001 / 1000)) = 3661001 / 1000 := by
      simp [repairSeconds, PyVal.isNumeric, PyVal.toRat]
    simp [seconds_to_srt_time_format, hrep, renderSRTTime_3661001]

/-- Witness for C3: the boundary value 3661.001 is non-negative and its
rendering satisfies the decomposition formula. -/
theorem timecode_C3_witness :
    (0 : ℚ) ≤ 3661001 / 1000
    ∧ (seconds_to_srt_time_format 0 (PyVal.num (3661001 / 1000))).2
        = specTimeCode (3661001 / 1000) :=
  ⟨by norm_num, timecode_C3.1 0 (3661001 / 1000) (by norm_num)⟩

/-- Carry-forward preserves monotonicity when the present numeric values never
drop below the running accumulator: the repaired value sequence headed by the
initial accumulator is non-decreasing whenever the accumulator followed by the
numeric values, in order, is non-decreasing. -/
theorem repairedSeconds_chain (fields : List PyVal) :
    ∀ prev : ℚ, List.Chain' (· ≤ ·) (prev :: numericValues fields) →
      List.Chain' (· ≤ ·) (prev :: repairedSeconds prev fields) := by
  induction fields with
  | nil => intro prev _; simp [repairedSeconds]
  | cons v rest ih =>
    intro prev hch
    by_cases hv : v.isNumeric = true
    · have hnv : numericValues (v :: rest) = v.toRat :: numericValues rest := by
        simp [numericValues, hv]
      rw [hnv, List.chain'_cons] at hch
      have : repairedSeconds prev (v :: rest)
          = v.toRat :: repairedSeconds v.toRat rest := by
        simp [repairedSeconds, repairSeconds, hv]
      rw [this, List.chain'_cons]
      exact ⟨hch.1, ih v.toRat hch.2⟩
    · have hv' : v.isNumeric = false := by
        cases hb : v.isNumeric
        · rfl
        · exact absurd hb hv
      have hnv : numericValues (v :: rest) = numericValues rest := by
        simp [numericValues, hv']
      rw [hnv] at hch
      have : repairedSeconds prev (v :: rest)
          = prev :: repairedSeconds prev rest := by
        simp [repairedSeconds, repairSeconds, hv']
      rw [this, List.chain'_cons]
      exact ⟨le_refl prev, ih prev hch⟩

/-- Counterexample to C2 as stated: the single chunk with present timestamps
(5, 1) yields the repaired seconds sequence [5, 1], which is decreasing: a
present-but-lower value is accepted as-is and becomes the new accumulator. -/
theorem monotonic_C2_counterexample :
    ¬ List.Chain' (· ≤ ·)
      (repairedSeconds 0 (chunkFields [Chunk.mk "a" (PyVal.num 5, PyVal.num 1)])) := by
  have : repairedSeconds 0 (chunkFields [Chunk.mk "a" (PyVal.num 5, PyVal.num 1)])
      = [(5 : ℚ), 1] := by
    simp [chunkFields, repairedSeconds, repairSeconds, PyVal.isNumeric, PyVal.toRat]
  rw [this]
  simp only [List.chain'_cons, List.chain'_singleton, and_true]
  norm_num

/-- The TimeCode strings of the emitted cues, in rendering order:
start then end of each cue. -/
def cueTimeCodes : List SrtCue → List String
  | [] => []
  | c :: rest => c.startTC :: c.endTC :: cueTimeCodes rest

/-- The TimeCodes rendered by the cue construction are exactly the renderings
of the repaired raw seconds values, field by field. -/
theorem cuesOf_renders_repaired (chunks : List Chunk) :
    ∀ (prev : ℚ) (i : ℕ),
      cueTimeCodes (cuesOf prev i chunks)
        = (repairedSeconds prev (chunkFields chunks)).map renderSRTTime := by
  induction chunks with
  | nil => intro prev i; simp [cuesOf, cueTimeCodes, chunkFields, repairedSeconds]
  | cons c rest ih =>
    intro prev i
    simp [cuesOf, cueTimeCodes, chunkFields, repairedSeconds, ih]

/-- C2 (amended): the repaired raw seconds value fed into every timestamp
conversion (the cue TimeCodes are exactly the renderings of these values) is
monotonically non-decreasing provided the numeric timestamp values present in
the input, taken in processing order and headed by the initial accumulator 0,
are themselves non-decreasing; without that proviso a present decreasing value
is accepted as-is and breaks monotonicity. -/
theorem monotonic_C2_amended (chunks : List Chunk)
    (h : List.Chain' (· ≤ ·) ((0 : ℚ) :: numericValues (chunkFields chunks))) :
    List.Chain' (· ≤ ·) ((0 : ℚ) :: repairedSeconds 0 (chunkFields chunks))
    ∧ cueTimeCodes (cuesOf 0 0 chunks)
        = (repairedSeconds 0 (chunkFields chunks)).map renderSRTTime :=
  ⟨repairedSeconds_chain (chunkFields chunks) 0 h, cuesOf_renders_repaired chunks 0 0⟩

/-- Witness for C2 (amended): the spec's end-to-end scenario chunks
(0, 2) then (2, missing) satisfy the proviso and give a non-decreasing
repaired sequence. -/
theorem monotonic_C2_witness :
    List.Chain' (· ≤ ·)
      ((0 : ℚ) :: numericValues (chunkFields
        [Chunk.mk " hello " (PyVal.num 0, PyVal.num 2),
         Chunk.mk "world" (PyVal.num 2, PyVal.none)]))
    ∧ List.Chain' (· ≤ ·)
      ((0 : ℚ) :: repairedSeconds 0 (chunkFields
        [Chunk.mk " hello " (PyVal.num 0, PyVal.num 2),
         Chunk.mk "world" (PyVal.num 2, PyVal.none)])) := by
  have hch : List.Chain' (· ≤ ·)
      ((0 : ℚ) :: numericValues (chunkFields
        [Chunk.mk " hello " (PyVal.num 0, PyVal.num 2),
         Chunk.mk "world" (PyVal.num 2, PyVal.none)])) := by
    have : numericValues (chunkFields
        [Chunk.mk " hello " (PyVal.num 0, PyVal.num 2),
         Chunk.mk "world" (PyVal.num 2, PyVal.none)]) = [(0 : ℚ), 2, 2] := by
      simp [chunkFields, numericValues, PyVal.isNumeric, PyVal.toRat]
    rw [this]
    simp only [List.chain'_cons, List.chain'_singleton, and_true]
    norm_num
  exact ⟨hch, (monotonic_C2_amended _ hch).1⟩

/-- The write loop emits exactly the concatenation of the cue blocks, for any
starting accumulator and index. -/
theorem writeChunks_eq_cues (chunks : List Chunk) :
    ∀ (prev : ℚ) (i : ℕ),
      writeChunks prev i chunks = concatStrings ((cuesOf prev i chunks).map cueBlock) := by
  induction chunks with
  | nil => intro prev i; simp [writeChunks, cuesOf, concatStrings]
  | cons c rest ih =>
    intro prev i
    simp only [writeChunks, cuesOf, seconds_to_srt_time_format, List.map_cons,
      concatStrings, cueBlock]
    rw [ih]

/-- One cue per chunk, for any starting accumulator and index. -/
theorem cuesOf_length (chunks : List Chunk) :
    ∀ (prev : ℚ) (i : ℕ), (cuesOf prev i chunks).length = chunks.length := by
  induction chunks with
  | nil => intro prev i; simp [cuesOf]
  | cons c rest ih =>
    intro prev i
    simp [cuesOf, ih]

/-- The emitted cue indices are the consecutive integers starting at one past
the starting index. -/
theorem cuesOf_map_index (chunks : List Chunk) :
    ∀ (prev : ℚ) (i : ℕ),
      (cuesOf prev i chunks).map SrtCue.index = List.range' (i + 1) chunks.length := by
  induction chunks with
  | nil => intro prev i; simp [cuesOf]
  | cons c rest ih =>
    intro prev i
    simp [cuesOf, List.range', ih]

/-- The emitted cue texts are the stripped chunk texts, in input order. -/
theorem cuesOf_map_text (chunks : List Chunk) :
    ∀ (prev : ℚ) (i : ℕ),
      (cuesOf prev i chunks).map SrtCue.text = chunks.map (fun c => pyStrip c.text) := by
  induction chunks with
  | nil => intro prev i; simp [cuesOf]
  | cons c rest ih =>
    intro prev i
    simp [cuesOf, ih]

/-- C4: SRT output structure: the file content is exactly the concatenation,
in input order, of one block per chunk (index line, time line, stripped text
line, blank line) with nothing after the last blank line; indices are 1-based
and contiguous; texts are the stripped chunk texts in order. -/
theorem srt_structure_C4 (chunks : List Chunk) :
    srtFileContent chunks = srtSpec chunks
    ∧ (cuesOf 0 0 chunks).length = chunks.length
    ∧ (cuesOf 0 0 chunks).map SrtCue.index = List.range' 1 chunks.length
    ∧ (cuesOf 0 0 chunks).map SrtCue.text = chunks.map (fun c => pyStrip c.text) :=
  ⟨writeChunks_eq_cues chunks 0 0, cuesOf_length chunks 0 0,
    cuesOf_map_index chunks 0 0, cuesOf_map_text chunks 0 0⟩

/-- When the accelerator runtime is unavailable, `check_fp16` returns `False`
with a diagnostic, before looking at the device at all. -/
theorem check_fp16_unavailable (env : CudaEnv) (d : Device) (h : env.available = false) :
    check_fp16 env d = (["CUDA is not available on this system."], Except.ok false) := by
  simp [check_fp16, h]

/-- With the runtime available, an integer device goes straight to the
property query. -/
theorem check_fp16_int (env : CudaEnv) (i : ℤ) (h : env.available = true) :
    check_fp16 env (Device.int i) = getDeviceMajorDecision env i := by
  simp [check_fp16, h]

/-- With the runtime available, a `cuda:`-prefixed string whose index part
parses goes to the property query at that index. -/
theorem check_fp16_str_indexed (env : CudaEnv) (s : String) (i : ℤ)
    (h : env.available = true) (hp : pyStartsWith "cuda:" s = true)
    (hi : pyParseInt ((pySplit ':' s).getD 1 "") = Option.some i) :
    check_fp16 env (Device.str s) = getDeviceMajorDecision env i := by
  simp only [List.getD_eq_getElem?_getD] at hi
  simp [check_fp16, h, hp, hi]

/-- With the runtime available, a string without the `cuda:` marker is an
invalid device format: diagnostic and `False`. -/
theorem check_fp16_str_invalid (env : CudaEnv) (s : String)
    (h : env.available = true) (hp : pyStartsWith "cuda:" s = false) :
    check_fp16 env (Device.str s)
      = (["Invalid device format. Use an integer or a string like 'cuda:0'."],
          Except.ok false) := by
  simp [check_fp16, h, hp]

/-- A failing property query (caught `AssertionError`) yields a diagnostic and
`False`. -/
theorem getDeviceMajorDecision_error (env : CudaEnv) (i : ℤ) (e : String)
    (h : env.deviceMajor i = Except.error e) :
    getDeviceMajorDecision env i = (["Error: " ++ e], Except.ok false) := by
  simp [getDeviceMajorDecision, h]

/-- A successful property query yields the `major >= 7` test. -/
theorem getDeviceMajorDecision_ok (env : CudaEnv) (i : ℤ) (m : ℕ)
    (h : env.deviceMajor i = Except.ok m) :
    getDeviceMajorDecision env i = ([], Except.ok (decide (7 ≤ m))) := by
  simp [getDeviceMajorDecision, h]

/-- An accelerator environment with CUDA available and a generation-8 device
at every index. -/
def envAllAmpere : CudaEnv :=
  { available := true, deviceMajor := fun _ => Except.ok 8 }

/-- An accelerator environment with CUDA available and a generation-6 device
at every index. -/
def envOldGPU : CudaEnv :=
  { available := true, deviceMajor := fun _ => Except.ok 6 }

/-- A host without the accelerator runtime. -/
def envNoCuda : CudaEnv :=
  { available := false, deviceMajor := fun _ => Except.error "Torch not compiled with CUDA enabled" }

/-- Counterexample to C5 as stated: with CUDA available, the device string
`cuda:abc` reaches `int(device.split(':')[1])`, which raises an uncaught
`ValueError`, aborting the run with no diagnostic and no full-precision
fallback. -/
theorem negotiator_C5_counterexample :
    check_fp16 envAllAmpere (Device.str "cuda:abc")
      = ([], Except.error "ValueError: invalid literal for int() with base 10") := by
  rfl

/-- C5 (amended): the negotiation never aborts the run except when the device
is a `cuda:`-prefixed string whose index part is not an integer literal (an
uncaught `ValueError`); on every other device it returns a boolean, and each
failure condition (runtime unavailable, unrecognized device form, failing
index query) degrades to `False` (full precision) with a diagnostic on the
error stream. -/
theorem negotiator_C5_amended (env : CudaEnv) (d : Device) (hd : cleanParse d) :
    isOkB (check_fp16 env d).2 = true
    ∧ (env.available = false →
        check_fp16 env d = (["CUDA is not available on this system."], Except.ok false))
    ∧ (∀ s, env.available = true → d = Device.str s → pyStartsWith "cuda:" s = false →
        check_fp16 env d
          = (["Invalid device format. Use an integer or a string like 'cuda:0'."],
              Except.ok false))
    ∧ (∀ i e, env.available = true → deviceIndex d = Option.some i →
        env.deviceMajor i = Except.error e →
        check_fp16 env d = (["Error: " ++ e], Except.ok false)) := by
  refine ⟨?_, ?_, ?_, ?_⟩
  · cases hav : env.available with
    | false => rw [check_fp16_unavailable env d hav]; rfl
    | true =>
      cases d with
      | int i =>
        rw [check_fp16_int env i hav]
        cases henv : env.deviceMajor i with
        | error e => rw [getDeviceMajorDecision_error env i e henv]; rfl
        | ok m => rw [getDeviceMajorDecision_ok env i m henv]; rfl
      | str s =>
        cases hpre : pyStartsWith "cuda:" s with
        | false => rw [check_fp16_str_invalid env s hav hpre]; rfl
        | true =>
          have hsome := hd hpre
          obtain ⟨i, hi⟩ := Option.isSome_iff_exists.mp hsome
          rw [check_fp16_str_indexed env s i hav hpre hi]
          cases henv : env.deviceMajor i with
          | error e => rw [getDeviceMajorDecision_error env i e henv]; rfl
          | ok m => rw [getDeviceMajorDecision_ok env i m henv]; rfl
  · intro hav
    exact check_fp16_unavailable env d hav
  · intro s hav heq hpre
    subst heq
    exact check_fp16_str_invalid env s hav hpre
  · intro i e hav hidx hmaj
    cases d with
    | int j =>
      simp only [deviceIndex, Option.some.injEq] at hidx
      subst hidx
      rw [check_fp16_int env j hav]
      exact getDeviceMajorDecision_error env j e hmaj
    | str s =>
      cases hpre : pyStartsWith "cuda:" s with
      | false => simp [deviceIndex, hpre] at hidx
      | true =>
        simp only [deviceIndex, hpre, if_true] at hidx
        rw [check_fp16_str_indexed env s i hav hpre hidx]
        exact getDeviceMajorDecision_error env i e hmaj

/-- Witness for C5 (amended): the integer device 0 parses cleanly and the
negotiation on a generation-8 environment returns a boolean. -/
theorem negotiator_C5_witness :
    cleanParse (Device.int 0)
    ∧ isOkB (check_fp16 envAllAmpere (Device.int 0)).2 = true :=
  ⟨trivial, (negotiator_C5_amended envAllAmpere (Device.int 0) trivial).1⟩

/-- C6: when the accelerator runtime is unavailable, the effective precision
is full (float32) for every device reference and every requested dtype. -/
theorem missing_accel_C6 (env : CudaEnv) (dtype : String) (device : Device)
    (h : env.available = false) :
    torch_dtype_choice env dtype device = Except.ok TorchDtype.float32 := by
  by_cases hd : dtype = "float16"
  · simp [torch_dtype_choice, hd, check_fp16_unavailable env device h]
  · simp [torch_dtype_choice, hd]

/-- Witness for C6: on a CUDA-less host, requesting float16 on a malformed
device still yields float32. -/
theorem missing_accel_C6_witness :
    envNoCuda.available = false
    ∧ torch_dtype_choice envNoCuda "float16" (Device.str "cuda:abc")
        = Except.ok TorchDtype.float32 :=
  ⟨rfl, missing_accel_C6 envNoCuda "float16" (Device.str "cuda:abc") rfl⟩

/-- C7: for every device referencing a valid accelerator index whose
architecture generation is at least 7, requesting dtype "float16" yields
effective precision float16. -/
theorem grant_fp16_C7 (env : CudaEnv) (d : Device) (i : ℤ) (m : ℕ)
    (hav : env.available = true) (hidx : deviceIndex d = Option.some i)
    (hmaj : env.deviceMajor i = Except.ok m) (h7 : 7 ≤ m) :
    torch_dtype_choice env "float16" d = Except.ok TorchDtype.float16 := by
  have hck : check_fp16 env d = ([], Except.ok true) := by
    cases d with
    | int j =>
      simp only [deviceIndex, Option.some.injEq] at hidx
      subst hidx
      rw [check_fp16_int env j hav, getDeviceMajorDecision_ok env j m hmaj,
        decide_eq_true h7]
    | str s =>
      cases hpre : pyStartsWith "cuda:" s with
      | false => simp [deviceIndex, hpre] at hidx
      | true =>
        simp only [deviceIndex, hpre, if_true] at hidx
        rw [check_fp16_str_indexed env s i hav hpre hidx,
          getDeviceMajorDecision_ok env i m hmaj, decide_eq_true h7]
  simp [torch_dtype_choice, hck]

/-- Witness for C7: the string device `cuda:0` on a generation-8 environment
with requested dtype "float16" gets float16. -/
theorem grant_fp16_C7_witness :
    deviceIndex (Device.str "cuda:0") = Option.some 0
    ∧ torch_dtype_choice envAllAmpere "float16" (Device.str "cuda:0")
        = Except.ok TorchDtype.float16 :=
  ⟨by decide,
    grant_fp16_C7 envAllAmpere (Device.str "cuda:0") 0 8 rfl (by decide) rfl
      (by norm_num)⟩

/-- C8: for every device referencing a valid accelerator index whose
architecture generation is below 7, the effective precision is full even when
"float16" is requested. -/
theorem deny_fp16_C8 (env : CudaEnv) (d : Device) (i : ℤ) (m : ℕ)
    (hav : env.available = true) (hidx : deviceIndex d = Option.some i)
    (hmaj : env.deviceMajor i = Except.ok m) (h7 : m < 7) :
    torch_dtype_choice env "float16" d = Except.ok TorchDtype.float32 := by
  have hck : check_fp16 env d = ([], Except.ok false) := by
    have hdec : decide (7 ≤ m) = false := decide_eq_false (not_le.mpr h7)
    cases d with
    | int j =>
      simp only [deviceIndex, Option.some.injEq] at hidx
      subst hidx
      rw [check_fp16_int env j hav, getDeviceMajorDecision_ok env j m hmaj, hdec]
    | str s =>
      cases hpre : pyStartsWith "cuda:" s with
      | false => simp [deviceIndex, hpre] at hidx
      | true =>
        simp only [deviceIndex, hpre, if_true] at hidx
        rw [check_fp16_str_indexed env s i hav hpre hidx,
          getDeviceMajorDecision_ok env i m hmaj, hdec]
  simp [torch_dtype_choice, hck]

/-- Witness for C8: the string device `cuda:0` on a generation-6 environment
with requested dtype "float16" is kept at float32. -/
theorem deny_fp16_C8_witness :
    deviceIndex (Device.str "cuda:0") = Option.some 0
    ∧ torch_dtype_choice envOldGPU "float16" (Device.str "cuda:0")
        = Except.ok TorchDtype.float32 :=
  ⟨by decide,
    deny_fp16_C8 envOldGPU (Device.str "cuda:0") 0 6 rfl (by decide) rfl
      (by norm_num)⟩

/-- C10: for every dtype string other than exactly "float16", the effective
precision is float32 regardless of the device and the environment; the
short-circuited `and` means the capability check is not consulted, so even a
device that would make it abort does not affect the outcome. -/
theorem dtype_gate_C10 (env : CudaEnv) (dtype : String) (device : Device)
    (h : dtype ≠ "float16") :
    torch_dtype_choice env dtype device = Except.ok TorchDtype.float32 := by
  simp [torch_dtype_choice, h]

/-- Witness for C10: dtype "float32" with the device string `cuda:abc` (on
which the capability check would raise) still yields float32. -/
theorem dtype_gate_C10_witness :
    "float32" ≠ "float16"
    ∧ torch_dtype_choice envAllAmpere "float32" (Device.str "cuda:abc")
        = Except.ok TorchDtype.float32 :=
  ⟨by decide, dtype_gate_C10 envAllAmpere "float32" (Device.str "cuda:abc") (by decide)⟩
